import Mathlib

/-!
Verification development for the submodel-decomposition and shape-inference
engine of `optimum/exporters/neuron/__main__.py` (the compile-then-validate
export entry point).  Python dictionaries are embedded as association lists
over `String` keys, Python exceptions as an explicit error type threaded
through `Except`, and the two in-place mutations performed by the shape
resolver are embedded by explicit state passing.  Functions imported from
modules outside this file's source (named constants, helpers from
`.utils` and `...neuron.utils`) are modelled from the specification and
carry a doc comment saying so.
-/

/-! ## Python dictionaries as association lists -/

/-- Lookup of a key in a Python dict embedded as an association list
(first matching entry; entries have unique keys in every dict this
development builds, mirroring Python dict semantics). -/
def lookupD {α : Type} : List (String × α) → String → Option α
  | [], _ => none
  | (k, v) :: rest, key => if k = key then some v else lookupD rest key

/-- Python `key in dict`. -/
def containsD {α : Type} (d : List (String × α)) (k : String) : Bool :=
  (lookupD d k).isSome

/-- Python `dict[key] = v`: replace the value of an existing key in place,
append a fresh key at the end (insertion order preserved). -/
def setD {α : Type} : List (String × α) → String → α → List (String × α)
  | [], key, v => [(key, v)]
  | (k, w) :: rest, key, v =>
    if k = key then (key, v) :: rest else (k, w) :: setD rest key v

/-- Removal of a key (Python `dict.pop` / `del`, under unique keys). -/
def eraseD {α : Type} : List (String × α) → String → List (String × α)
  | [], _ => []
  | (k, v) :: rest, key =>
    if k = key then eraseD rest key else (k, v) :: eraseD rest key

/-- Python `dict.update(other)`: fold the updates through `setD`. -/
def updD {α : Type} (d : List (String × α)) (upd : List (String × α)) :
    List (String × α) :=
  upd.foldl (fun acc p => setD acc p.1 p.2) d

/-! ## Python values and exceptions -/

/-- Python scalar values as they appear in the argument mappings handled by
this module (argparse namespaces hold ints for shape axes, strings for model
identifiers, and booleans for flags). -/
inductive PyVal where
  | vint (n : Nat)
  | vstr (s : String)
  | vbool (b : Bool)
  | vnone
  deriving DecidableEq, Repr

/-- Python truthiness of a scalar value. -/
def pyTruthyVal : PyVal → Bool
  | .vint n => n ≠ 0
  | .vstr s => s ≠ ""
  | .vbool b => b
  | .vnone => false

/-- The exception classes raised or caught in `__main__.py`.
`attributeErrorMissingShapes` embeds the `AttributeError` raised by the two
shape-normalization functions, whose message lists exactly the set difference
`mandatory_axes.difference(args.keys())`; the payload records that list.
`missingShapeError` embeds the error raised by `check_mandatory_input_shapes`
for single-graph models.  `shapeError`, `atolError` and `outputMatchError`
are the validation-time classes imported from `..error_utils`. -/
inductive PyErr where
  | keyError (key : String)
  | attributeError (msg : String)
  | attributeErrorMissingShapes (missing : List String)
  | unboundLocalError (name : String)
  | valueError (msg : String)
  | runtimeError (msg : String)
  | missingShapeError (missing : List String)
  | shapeError
  | atolError
  | outputMatchError
  | otherException (msg : String)
  deriving DecidableEq, Repr

/-- Python `x[k]` on a dict: the value, or a `KeyError` naming the key. -/
def getItem {α : Type} (d : List (String × α)) (k : String) : Except PyErr α :=
  match lookupD d k with
  | some v => .ok v
  | none => .error (.keyError k)

/-! ## Strings: containment, lowering, path segments, `or` -/

/-- Whether the first character list is a prefix of the second. -/
def listHasPrefix : List Char → List Char → Bool
  | [], _ => true
  | _ :: _, [] => false
  | n :: ns, h :: hs => n = h && listHasPrefix ns hs

/-- Whether the first character list occurs contiguously in the second. -/
def listContainsInfix (needle hay : List Char) : Bool :=
  match hay with
  | [] => needle.isEmpty
  | _ :: rest => listHasPrefix needle hay || listContainsInfix needle rest

/-- Python `needle in hay` on strings. -/
def strContains (hay needle : String) : Bool :=
  listContainsInfix needle.toList hay.toList

/-- ASCII lowercase of one character (Python `str.lower` restricted to the
ASCII identifiers this module compares). -/
def lowerChar (c : Char) : Char :=
  if 65 ≤ c.toNat ∧ c.toNat ≤ 90 then Char.ofNat (c.toNat + 32) else c

/-- Python `s.lower()` for the ASCII model identifiers used here. -/
def strLower (s : String) : String :=
  String.mk (s.toList.map lowerChar)

/-- Python `s.split("/")[-1]`: the characters after the last slash (the
whole string when no slash occurs). -/
def lastSegment (s : String) : String :=
  String.mk ((s.toList.reverse.takeWhile (fun c => c != '/')).reverse)

/-- Python `a or b` over optional strings, where both `None` and the empty
string are falsy. -/
def pyStrOr (a b : Option String) : Option String :=
  match a with
  | some s => if s = "" then b else some s
  | none => b

/-- A Python value that is, per the annotations in the source, either a bare
scalar or a list of scalars (`Union[str, List[str]]`,
`Union[float, List[float]]`). -/
inductive PyScalarOrList (α : Type) where
  | scalar (a : α)
  | list (l : List α)
  deriving DecidableEq, Repr

/-- Python truthiness for an optional scalar-or-list value: `None`, the empty
string and the empty list are falsy. -/
def pyTruthySL : Option (PyScalarOrList String) → Bool
  | none => false
  | some (.scalar s) => s ≠ ""
  | some (.list l) => !l.isEmpty

/-- Stands for the Python `float` scalars carried (never computed with) by
the low-rank-adapter scale parameters; only their container shape matters
in this module. -/
abbrev LoraScale := Rat

/-! ## Data model of a loaded stable-diffusion pipeline

Only the configuration attributes read by `__main__.py` are embedded.
Attributes that the source probes with `hasattr` (`tokenizer_2`,
`text_encoder_2`) are two-level options: the outer level is attribute
presence, the inner level is the Python `is not None` test. -/

/-- A tokenizer as seen by shape inference: only `model_max_length` is read. -/
structure SDTokenizer where
  model_max_length : Nat
  deriving DecidableEq, Repr

/-- A text-encoder configuration: only `hidden_size` is read (for the
controlnet shape set). -/
structure SDTextEncoderConfig where
  hidden_size : Nat
  deriving DecidableEq, Repr

/-- The unet configuration: only `in_channels` is read. -/
structure SDUnetConfig where
  in_channels : Nat
  deriving DecidableEq, Repr

/-- The VAE configuration: `in_channels`, `latent_channels` and
`block_out_channels` are read. -/
structure SDVaeConfig where
  in_channels : Nat
  latent_channels : Nat
  block_out_channels : List Nat
  deriving DecidableEq, Repr

/-- A loaded diffusion pipeline as read by this module. -/
structure SDPipeline where
  tokenizer : Option SDTokenizer
  tokenizer_2 : Option (Option SDTokenizer)
  text_encoder : Option SDTextEncoderConfig
  text_encoder_2 : Option (Option SDTextEncoderConfig)
  unet : SDUnetConfig
  vae : SDVaeConfig
  deriving DecidableEq, Repr

/-- Nested per-component shape mapping
(`Dict[str, Dict[str, int]]`, e.g. `input_shapes["unet"]["height"]`). -/
abbrev SDict := List (String × List (String × Nat))

/-- Nested lookup `d[k][kk]` returning `none` when either level is absent. -/
def lookup2 (d : SDict) (k kk : String) : Option Nat :=
  match lookupD d k with
  | some inner => lookupD inner kk
  | none => none

/-- Line 225 of the source:
`vae_scale_factor = 2 ** (len(model.vae.config.block_out_channels) - 1) or 8`.
For `n ≥ 1` Python computes the integer `2^(n-1)`, which is nonzero hence
truthy, so the `or 8` fallback never fires; it would fire only on a falsy
(zero) power.  (For `n = 0` Python computes the float `0.5`, also truthy;
that case lies outside this Nat-valued embedding and is excluded by the
`1 ≤ n` hypotheses of the theorems about it.) -/
def pyVaeScaleFactor (n : Nat) : Nat :=
  let p := 2 ^ (n - 1)
  if p = 0 then 8 else p

/-- The spec's reading of line 225: the factor is
`2^(number_of_scale_reduction_stages)` clamped to at least 8.  Stated from
the spec's words only, for comparison against `pyVaeScaleFactor`. -/
def specClampedScaleFactor (n : Nat) : Nat :=
  max (2 ^ (n - 1)) 8

/-! ## infer_stable_diffusion_shapes_from_diffusers (lines 211-262)

The Python function mutates `input_shapes` in place (`dict.update`, item
assignment) and returns the same object.  It is embedded as a state-passing
core `inferSDcore` returning `(outcome, state-of-the-mapping)`; the
module-level function and the caller-visible mapping after the call are
both read off the core. -/

/-- Sequence of two state transformers: run the second only if the first
succeeded, threading the mapping state (embeds Python statement order). -/
def thenSt (r : Except PyErr Unit × SDict) (f : SDict → Except PyErr Unit × SDict) :
    Except PyErr Unit × SDict :=
  match r with
  | (.ok _, s) => f s
  | (.error e, s) => (.error e, s)

/-- Python `d[k].update(upd)`: `KeyError` when `k` is absent, otherwise the
inner dict is updated in place. -/
def updateItem (d : SDict) (k : String) (upd : List (String × Nat)) :
    Except PyErr Unit × SDict :=
  match lookupD d k with
  | none => (.error (.keyError k), d)
  | some inner => (.ok (), setD d k (updD inner upd))

/-- Python `d[k][kk] = v`: `KeyError` when `k` is absent. -/
def setItem2 (d : SDict) (k kk : String) (v : Nat) :
    Except PyErr Unit × SDict :=
  match lookupD d k with
  | none => (.error (.keyError k), d)
  | some inner => (.ok (), setD d k (setD inner kk v))

/-- Lines 216-221: resolve `sequence_length` from `model.tokenizer`, else
from a present-and-non-None `model.tokenizer_2`, else raise
`AttributeError`. -/
def inferSeqLen (model : SDPipeline) : Except PyErr Nat :=
  match model.tokenizer with
  | some tok => .ok tok.model_max_length
  | none =>
    match model.tokenizer_2 with
    | some (some tok2) => .ok tok2.model_max_length
    | _ => .error (.attributeError
        "Cannot infer sequence_length as there is no tokenizer as attribute.")

/-- State-passing embedding of lines 216-262 of
`infer_stable_diffusion_shapes_from_diffusers`.  The second component is
the state of the (mutated-in-place) `input_shapes` mapping when the
function returns or when the exception escapes. -/
def inferSDcore (input_shapes : SDict) (model : SDPipeline)
    (controlnets : Option (List Unit)) : Except PyErr Unit × SDict :=
  match inferSeqLen model with
  | .error e => (.error e, input_shapes)
  | .ok sequence_length =>
    let unet_num_channels := model.unet.in_channels
    let vae_encoder_num_channels := model.vae.in_channels
    let vae_decoder_num_channels := model.vae.latent_channels
    let vae_scale_factor := pyVaeScaleFactor model.vae.block_out_channels.length
    match getItem input_shapes "unet" with
    | .error e => (.error e, input_shapes)
    | .ok unetShapes =>
      match getItem unetShapes "height" with
      | .error e => (.error e, input_shapes)
      | .ok height =>
        match getItem unetShapes "width" with
        | .error e => (.error e, input_shapes)
        | .ok width =>
          let scaled_height := height / vae_scale_factor
          let scaled_width := width / vae_scale_factor
          thenSt (updateItem input_shapes "text_encoder"
              [("sequence_length", sequence_length)]) (fun s =>
          let s := if (model.text_encoder_2).isSome then
              setD s "text_encoder_2" ((lookupD s "text_encoder").getD [])
            else s
          thenSt (updateItem s "unet"
              [("sequence_length", sequence_length),
               ("num_channels", unet_num_channels),
               ("height", scaled_height),
               ("width", scaled_width)]) (fun s =>
          thenSt (match controlnets with
            | some cns =>
              if cns.isEmpty then (.ok (), s)
              else setItem2 s "unet" "vae_scale_factor" vae_scale_factor
            | none => (.ok (), s)) (fun s =>
          thenSt (updateItem s "vae_encoder"
              [("num_channels", vae_encoder_num_channels),
               ("height", height),
               ("width", width)]) (fun s =>
          thenSt (updateItem s "vae_decoder"
              [("num_channels", vae_decoder_num_channels),
               ("height", scaled_height),
               ("width", scaled_width)]) (fun s =>
          match controlnets with
          | some cns =>
            if cns.isEmpty then (.ok (), s)
            else
              match getItem s "unet" with
              | .error e => (.error e, s)
              | .ok un =>
                match getItem un "batch_size" with
                | .error e => (.error e, s)
                | .ok bs =>
                  match model.text_encoder with
                  | none =>
                    (.error (.attributeError
                      "NoneType object has no attribute config"), s)
                  | some te =>
                    (.ok (), setD s "controlnet"
                      [("batch_size", bs),
                       ("sequence_length", sequence_length),
                       ("num_channels", unet_num_channels),
                       ("height", scaled_height),
                       ("width", scaled_width),
                       ("vae_scale_factor", vae_scale_factor),
                       ("encoder_hidden_size", te.hidden_size)])
          | none => (.ok (), s))))))

/-- `infer_stable_diffusion_shapes_from_diffusers` proper: the value the
Python function returns (which is the caller's own, mutated, mapping). -/
def infer_stable_diffusion_shapes_from_diffusers (input_shapes : SDict)
    (model : SDPipeline) (controlnets : Option (List Unit)) :
    Except PyErr SDict :=
  match inferSDcore input_shapes model controlnets with
  | (.ok _, s) => .ok s
  | (.error e, _) => .error e

/-- The state of the caller's `input_shapes` mapping after the call (equal
to the returned mapping on success since the function mutates its argument
in place and returns it; on an escaped exception, whatever updates had
already been applied remain visible to the caller). -/
def infer_sd_caller_shapes_after (input_shapes : SDict) (model : SDPipeline)
    (controlnets : Option (List Unit)) : SDict :=
  (inferSDcore input_shapes model controlnets).2

/-! ## Shape normalization (lines 139-151 and 184-208) -/

/-- Lines 141-144: the mandatory axis set for a sentence-transformers model,
depending on whether `"clip"` occurs in the lowercased model name. -/
def stMandatoryAxes (modelName : String) : List String :=
  if strContains (strLower modelName) "clip" then
    ["text_batch_size", "image_batch_size", "sequence_length",
     "num_channels", "width", "height"]
  else
    ["batch_size", "sequence_length"]

/-- Lines 139-151, `normalize_sentence_transformers_input_shapes`: resolve
the model name via `args.get("model", "")` (a non-string value there would
make `.lower()` raise `AttributeError`), check that the mandatory axes are a
subset of the argument keys, raise an `AttributeError` naming the missing
axes otherwise, and return the dict of just the mandatory axes. -/
def normalize_sentence_transformers_input_shapes
    (args : List (String × PyVal)) : Except PyErr (List (String × PyVal)) :=
  match (match lookupD args "model" with
         | none => some ""
         | some (.vstr s) => some s
         | some _ => none) with
  | none => .error (.attributeError "object has no attribute lowercasing")
  | some modelName =>
    let mandatory_axes := stMandatoryAxes modelName
    let missing := mandatory_axes.filter (fun a => !(containsD args a))
    if missing.isEmpty then
      .ok (mandatory_axes.map fun a => (a, (lookupD args a).getD .vnone))
    else
      .error (.attributeErrorMissingShapes missing)

/-- Modelled from the spec: the argument names of
`build_stable_diffusion_components_mandatory_shapes` (imported from
`.utils`, not under `src/`), read by line 189 via
`inspect.getfullargspec(...).args`.  Per spec section 4.1 the caller-supplied
axes are batch sizes, the image size, the classifier-free-guidance flag and
the adapter image count, the rest (sequence length, channel counts) being
derived; the function's signature therefore carries exactly the axis names
that line 191-198 then subtracts from. -/
def sdBuildShapesArgNames : List String :=
  ["batch_size", "sequence_length", "unet_num_channels",
   "vae_encoder_num_channels", "vae_decoder_num_channels",
   "height", "width", "num_images_per_prompt", "do_classifier_free_guidance"]

/-- Lines 190-198: the mandatory axes are the builder's argument names minus
the derived/defaulted ones. -/
def sdRemovedAxes : List String :=
  ["sequence_length", "unet_num_channels", "vae_encoder_num_channels",
   "vae_decoder_num_channels", "num_images_per_prompt",
   "do_classifier_free_guidance"]

def sdMandatoryAxes : List String :=
  sdBuildShapesArgNames.filter (fun a => !(sdRemovedAxes.contains a))

/-- Modelled from the spec: `build_stable_diffusion_components_mandatory_shapes`
(imported from `.utils`, not under `src/`).  Per spec section 4.1 it accepts
the caller axes and builds one fresh shape dict per pipeline component,
carrying the caller batch size into the text encoder and the caller batch
size (scaled by the adapter image count, doubled under classifier-free
guidance for the denoiser), height and width into every image-bearing
component; sequence length and channel counts are left for derivation. -/
def build_stable_diffusion_components_mandatory_shapes
    (do_classifier_free_guidance : PyVal)
    (mandatory_shapes : List (String × PyVal)) : SDict :=
  let get : String → Nat := fun k =>
    match lookupD mandatory_shapes k with
    | some (.vint n) => n
    | _ => 0
  let bs := get "batch_size"
  let n := get "num_images_per_prompt"
  let h := get "height"
  let w := get "width"
  let unet_bs :=
    if pyTruthyVal do_classifier_free_guidance then bs * n * 2 else bs * n
  [("text_encoder", [("batch_size", bs)]),
   ("unet", [("batch_size", unet_bs), ("height", h), ("width", w)]),
   ("vae_encoder", [("batch_size", bs * n), ("height", h), ("width", w)]),
   ("vae_decoder", [("batch_size", bs * n), ("height", h), ("width", w)])]

/-- Lines 184-208, `normalize_stable_diffusion_input_shapes`.  The function
first pops `do_classifier_free_guidance` from the caller's mapping
(`KeyError` when absent), checks the mandatory axes against the remaining
keys, raises an `AttributeError` naming the missing axes otherwise, defaults
`num_images_per_prompt` to 1, and hands everything to the shape builder. -/
def normalize_stable_diffusion_input_shapes
    (args : List (String × PyVal)) : Except PyErr SDict :=
  match lookupD args "do_classifier_free_guidance" with
  | none => .error (.keyError "do_classifier_free_guidance")
  | some do_cfg =>
    let args2 := eraseD args "do_classifier_free_guidance"
    let missing := sdMandatoryAxes.filter (fun a => !(containsD args2 a))
    if missing.isEmpty then
      let mandatory_shapes :=
        sdMandatoryAxes.map fun a => (a, (lookupD args2 a).getD .vnone)
      let mandatory_shapes := setD mandatory_shapes "num_images_per_prompt"
        ((lookupD args2 "num_images_per_prompt").getD (.vint 1))
      .ok (build_stable_diffusion_components_mandatory_shapes do_cfg
        mandatory_shapes)
    else
      .error (.attributeErrorMissingShapes missing)

/-- The state of the caller's argument mapping after
`normalize_stable_diffusion_input_shapes` returns or raises: line 187 takes
the mapping itself (`vars(args)` is the namespace's own dict, not a copy)
and line 188 pops `do_classifier_free_guidance` from it; every later step
builds fresh dicts.  A pop on an absent key raises before mutating. -/
def normalize_sd_args_after (args : List (String × PyVal)) :
    List (String × PyVal) :=
  if containsD args "do_classifier_free_guidance" then
    eraseD args "do_classifier_free_guidance"
  else args

/-! ## Low-rank-adapter parameter normalization (lines 333-350) -/

/-- One leg of `_normalize_lora_params`: `isinstance(x, scalar-type)` wraps
the bare scalar in a one-element list; lists and `None` pass through. -/
def normOneLora {α : Type} : Option (PyScalarOrList α) → Option (PyScalarOrList α)
  | some (.scalar a) => some (.list [a])
  | x => x

/-- Lines 333-350, `_normalize_lora_params`: normalize each of the four
low-rank-adapter parameters independently.  The Python body is four
`isinstance` checks and list constructions; it cannot raise, which the
embedding reflects by being a total function (no `Except`). -/
def normalize_lora_params
    (lora_model_ids lora_weight_names lora_adapter_names :
      Option (PyScalarOrList String))
    (lora_scales : Option (PyScalarOrList LoraScale)) :
    Option (PyScalarOrList String) × Option (PyScalarOrList String) ×
      Option (PyScalarOrList String) × Option (PyScalarOrList LoraScale) :=
  (normOneLora lora_model_ids, normOneLora lora_weight_names,
   normOneLora lora_adapter_names, normOneLora lora_scales)

/-! ## Artifact names and external constants -/

/-- Modelled from the spec: the submodel-name and artifact-file constants
imported from `...neuron.utils` (not under `src/`).  Spec sections 4.2 and 8
fix them: encoder-decoder submodels are named "encoder" and "decoder", the
compiled artifact file is "model.neuron", and the diffusion components are
text_encoder, text_encoder_2, unet, vae_encoder, vae_decoder and
controlnet (the latter suffixed with its index). -/
def ENCODER_NAME : String := "encoder"

def DECODER_NAME : String := "decoder"

def NEURON_FILE_NAME : String := "model.neuron"

def DIFFUSION_MODEL_TEXT_ENCODER_NAME : String := "text_encoder"

def DIFFUSION_MODEL_TEXT_ENCODER_2_NAME : String := "text_encoder_2"

def DIFFUSION_MODEL_UNET_NAME : String := "unet"

def DIFFUSION_MODEL_VAE_ENCODER_NAME : String := "vae_encoder"

def DIFFUSION_MODEL_VAE_DECODER_NAME : String := "vae_decoder"

def DIFFUSION_MODEL_CONTROLNET_NAME : String := "controlnet"

/-- Python `os.path.join(a, b)` for the plain relative names used here. -/
def pathJoin (a b : String) : String := a ++ "/" ++ b

/-! ## Model decomposition (lines 265-463) -/

/-- A loaded transformers model as read by the dispatcher: whether its
`config` is a `PretrainedConfig` (diffusion pipelines carry a plain dict
there instead), the `is_encoder_decoder` flag, `name_or_path`, and the
architecture `model_type`. -/
structure PretrainedInput where
  config_is_pretrained : Bool
  is_encoder_decoder : Bool
  name_or_path : Option String
  model_type : String
  deriving DecidableEq, Repr

/-- The model handed to decomposition: a plain pretrained model or a
diffusion pipeline. -/
inductive LoadedModel where
  | pretrained (m : PretrainedInput)
  | pipeline (p : SDPipeline)
  deriving DecidableEq, Repr

/-- The caller-supplied input shapes: a flat axis-to-size dict for
single-graph and encoder-decoder models, a nested per-component dict for
diffusion pipelines. -/
inductive InputShapes where
  | flat (m : List (String × Nat))
  | nested (m : SDict)
  deriving DecidableEq, Repr

/-- Submodel entries paired with the artifact-name map.  The traced
sub-graphs and their neuron configs are opaque to the properties verified
here, so each entry's payload is `Unit`. -/
abbrev SubmodelResult := List (String × Unit) × List (String × String)

/-- Modelled from the spec: `get_encoder_decoder_models_for_export`
(imported from `.utils`, not under `src/`).  Spec section 4.2: the
encoder-decoder family "splits into exactly two submodel entries,
'encoder' and 'decoder', each with an independently derived export
configuration". -/
def get_encoder_decoder_models_for_export : List (String × Unit) :=
  [(ENCODER_NAME, ()), (DECODER_NAME, ())]

/-- Lines 434-463, `_get_submodels_and_neuron_configs_for_encoder_decoder`:
fail fast with a `RuntimeError` when the older compiler generation
(neuron-cc, probed by `is_neuron_available`) is active, otherwise produce
the two submodels and the artifact-name map keyed "encoder"/"decoder".
(`maybe_save_preprocessors` is a filesystem side effect, out of scope.) -/
def get_submodels_and_neuron_configs_for_encoder_decoder
    (neuron_available : Bool) (_input_shapes : InputShapes) (_task : String)
    (_output_attentions _output_hidden_states : Bool) :
    Except PyErr SubmodelResult :=
  if neuron_available then
    .error (.runtimeError
      "Encoder-decoder models export is not supported by neuron-cc on inf1, please use neuronx-cc on either inf2/trn1 instead.")
  else
    .ok (get_encoder_decoder_models_for_export,
      [(ENCODER_NAME, pathJoin ENCODER_NAME NEURON_FILE_NAME),
       (DECODER_NAME, pathJoin DECODER_NAME NEURON_FILE_NAME)])

/-- Modelled from the spec: `replace_stable_diffusion_submodels` (imported
from `.utils`, not under `src/`) applies caller-specified submodel
substitutions prior to shape derivation.  Loading a substitute component is
external I/O; a pipeline value already reflecting any substitution is what
this embedding receives, so the function acts as the identity here. -/
def replace_stable_diffusion_submodels (model : SDPipeline)
    (_submodels : Option Unit) : SDPipeline := model

/-- Modelled from the spec: `get_stable_diffusion_models_for_export`
(imported from `.utils`, not under `src/`).  Spec section 4.2 step 5: one
submodel entry per present component — text encoder(s) (one or two), the
denoiser, the image encoder and decoder, and one entry per auxiliary
conditioning network, name suffixed with its index. -/
def get_stable_diffusion_models_for_export (model : SDPipeline)
    (_shapes : SDict) (controlnets : Option (List Unit)) :
    List (String × Unit) :=
  (if model.text_encoder.isSome
    then [(DIFFUSION_MODEL_TEXT_ENCODER_NAME, ())] else []) ++
  (match model.text_encoder_2 with
    | some (some _) => [(DIFFUSION_MODEL_TEXT_ENCODER_2_NAME, ())]
    | _ => []) ++
  [(DIFFUSION_MODEL_UNET_NAME, ()),
   (DIFFUSION_MODEL_VAE_ENCODER_NAME, ()),
   (DIFFUSION_MODEL_VAE_DECODER_NAME, ())] ++
  (match controlnets with
    | some cns =>
      (List.range cns.length).map
        (fun i => (DIFFUSION_MODEL_CONTROLNET_NAME ++ "_" ++ toString i, ()))
    | none => [])

/-- Lines 353-431, `_get_submodels_and_neuron_configs_for_stable_diffusion`:
apply submodel substitution, fail with a `RuntimeError` on the older
compiler generation, infer the per-component shapes, normalize the
low-rank-adapter parameters, build the submodel entries, and assemble the
artifact-name map (unet, vae_encoder, vae_decoder always; text encoders
when present; one suffixed entry per controlnet).
`check_compiler_compatibility_for_stable_diffusion` is an external version
probe and the scheduler/tokenizer/config saves are filesystem side effects;
neither is modelled. -/
def get_submodels_and_neuron_configs_for_stable_diffusion
    (neuron_available : Bool) (model : SDPipeline) (input_shapes : SDict)
    (_task : String) (submodels : Option Unit) (_output_hidden_states : Bool)
    (lora_model_ids lora_weight_names lora_adapter_names :
      Option (PyScalarOrList String))
    (lora_scales : Option (PyScalarOrList LoraScale))
    (controlnets : Option (List Unit)) : Except PyErr SubmodelResult :=
  let model := replace_stable_diffusion_submodels model submodels
  if neuron_available then
    .error (.runtimeError
      "Stable diffusion export is not supported by neuron-cc on inf1, please use neuronx-cc on either inf2/trn1 instead.")
  else
    match infer_stable_diffusion_shapes_from_diffusers input_shapes model
        controlnets with
    | .error e => .error e
    | .ok shapes =>
      let _normalized := normalize_lora_params lora_model_ids
        lora_weight_names lora_adapter_names lora_scales
      let models := get_stable_diffusion_models_for_export model shapes
        controlnets
      let names :=
        [(DIFFUSION_MODEL_UNET_NAME,
           pathJoin DIFFUSION_MODEL_UNET_NAME NEURON_FILE_NAME),
         (DIFFUSION_MODEL_VAE_ENCODER_NAME,
           pathJoin DIFFUSION_MODEL_VAE_ENCODER_NAME NEURON_FILE_NAME),
         (DIFFUSION_MODEL_VAE_DECODER_NAME,
           pathJoin DIFFUSION_MODEL_VAE_DECODER_NAME NEURON_FILE_NAME)]
      let names := if model.text_encoder.isSome then
          setD names DIFFUSION_MODEL_TEXT_ENCODER_NAME
            (pathJoin DIFFUSION_MODEL_TEXT_ENCODER_NAME NEURON_FILE_NAME)
        else names
      let names := match model.text_encoder_2 with
        | some (some _) =>
          setD names DIFFUSION_MODEL_TEXT_ENCODER_2_NAME
            (pathJoin DIFFUSION_MODEL_TEXT_ENCODER_2_NAME NEURON_FILE_NAME)
        | _ => names
      let names := match controlnets with
        | some cns =>
          if cns.isEmpty then names
          else (List.range cns.length).foldl
            (fun acc i =>
              setD acc (DIFFUSION_MODEL_CONTROLNET_NAME ++ "_" ++ toString i)
                (pathJoin (DIFFUSION_MODEL_CONTROLNET_NAME ++ "_" ++ toString i)
                  NEURON_FILE_NAME))
            names
        | none => names
      .ok (models, names)

/-- Modelled from the spec: `check_mandatory_input_shapes` (imported from
`.utils`, not under `src/`).  Spec section 4.2: the single-graph family
"validates that every mandatory input name the constructor requires is
present in resolved_shapes (fails with `MissingShapeError` otherwise)" and
keeps exactly the required shapes. -/
def check_mandatory_input_shapes (mandatory : List String)
    (input_shapes : List (String × Nat)) :
    Except PyErr (List (String × Nat)) :=
  let missing := mandatory.filter (fun a => !(containsD input_shapes a))
  if missing.isEmpty then
    .ok (mandatory.filterMap fun a =>
      (lookupD input_shapes a).map (fun v => (a, v)))
  else
    .error (.missingShapeError missing)

/-- Lines 265-330, `get_submodels_and_neuron_configs`: the family dispatcher.
`is_stable_diffusion` is the substring test on the task;
`is_encoder_decoder` reads the model config's flag only when the config is a
`PretrainedConfig`.  The stable-diffusion branch rejects `output_attentions`;
the single-graph branch rejects both optional-output flags, validates the
mandatory shapes of the task's export-config constructor (whose required
input names `single_graph_mandatory` stands for — the constructor lookup
itself lives in the external `TasksManager`), and emits exactly one
submodel keyed by the model's short name with artifact file "model.neuron".
A diffusion task with a non-pipeline model (or flat shapes), and a
single-graph task with a pipeline model (or nested shapes), cannot be
produced by this module's callers and would die inside external code; they
are embedded as generic errors. -/
def get_submodels_and_neuron_configs (neuron_available : Bool)
    (model : LoadedModel) (input_shapes : InputShapes) (task : String)
    (single_graph_mandatory : List String) (model_name_or_path : Option String)
    (submodels : Option Unit) (output_attentions output_hidden_states : Bool)
    (lora_model_ids lora_weight_names lora_adapter_names :
      Option (PyScalarOrList String))
    (lora_scales : Option (PyScalarOrList LoraScale))
    (controlnets : Option (List Unit)) : Except PyErr SubmodelResult :=
  let is_stable_diffusion := strContains task "stable-diffusion"
  let is_encoder_decoder := match model with
    | .pretrained m => m.config_is_pretrained && m.is_encoder_decoder
    | .pipeline _ => false
  if is_stable_diffusion then
    if output_attentions then
      .error (.valueError "output_attentions is not supported by the task yet.")
    else
      match model with
      | .pipeline p =>
        match input_shapes with
        | .nested s =>
          get_submodels_and_neuron_configs_for_stable_diffusion
            neuron_available p s task submodels output_hidden_states
            lora_model_ids lora_weight_names lora_adapter_names lora_scales
            controlnets
        | .flat _ => .error (.otherException
            "flat input shapes for a diffusion task")
      | .pretrained _ => .error (.otherException
          "non-pipeline model for a diffusion task")
  else if is_encoder_decoder then
    get_submodels_and_neuron_configs_for_encoder_decoder neuron_available
      input_shapes task output_attentions output_hidden_states
  else
    if output_attentions || output_hidden_states then
      .error (.valueError
        "output_attentions and output_hidden_states are not supported by the task yet.")
    else
      match model with
      | .pretrained m =>
        match input_shapes with
        | .flat fm =>
          match check_mandatory_input_shapes single_graph_mandatory fm with
          | .error e => .error e
          | .ok _checked =>
            let model_name := pyStrOr m.name_or_path model_name_or_path
            let key := match model_name with
              | some s => if s = "" then m.model_type else lastSegment s
              | none => m.model_type
            .ok ([(key, ())], [(key, "model.neuron")])
        | .nested _ => .error (.otherException
            "nested input shapes for a single-graph task")
      | .pipeline _ => .error (.otherException
          "pipeline model for a single-graph task")

/-! ## load_models_and_neuron_configs (lines 466-531) -/

/-- Modelled from the spec: `load_controlnets` (imported from `.utils`, not
under `src/`) loads one auxiliary conditioning network per supplied
identifier.  The networks themselves are opaque here. -/
def load_controlnets : PyScalarOrList String → List Unit
  | .scalar _ => [()]
  | .list l => l.map fun _ => ()

/-- Lines 466-531, `load_models_and_neuron_configs`.  The external model
loading (`TasksManager.get_model_from_task`) and library inference are
collaborators returning the `model` value this embedding receives.  The
local variable `controlnets` is assigned only inside
`if controlnet_model_ids:` (line 509); when that test is falsy the name is
never bound, and passing it at line 528 raises `UnboundLocalError`. -/
def load_models_and_neuron_configs (neuron_available : Bool)
    (model : LoadedModel) (input_shapes : InputShapes) (task : String)
    (single_graph_mandatory : List String) (model_name_or_path : Option String)
    (submodels : Option Unit) (output_attentions output_hidden_states : Bool)
    (lora_model_ids lora_weight_names lora_adapter_names :
      Option (PyScalarOrList String))
    (lora_scales : Option (PyScalarOrList LoraScale))
    (controlnet_model_ids : Option (PyScalarOrList String)) :
    Except PyErr SubmodelResult :=
  if pyTruthySL controlnet_model_ids then
    match controlnet_model_ids with
    | some cids =>
      get_submodels_and_neuron_configs neuron_available model input_shapes
        task single_graph_mandatory model_name_or_path submodels
        output_attentions output_hidden_states lora_model_ids
        lora_weight_names lora_adapter_names lora_scales
        (some (load_controlnets cids))
    | none => .error (.unboundLocalError "controlnets")
  else
    .error (.unboundLocalError "controlnets")

/-! ## main_export: the validation tail (lines 608-645) -/

/-- Lines 611-615: for a stable-diffusion task, remove the vae-encoder
entry from the submodel mapping, the compiled named outputs, and the
artifact-name map (its output depends on a random sampling step). -/
def drop_vae_encoder {α β : Type} (models_and_neuron_configs : List (String × β))
    (neuron_outputs : List (String × α))
    (output_model_names : List (String × String)) :
    List (String × β) × List (String × α) × List (String × String) :=
  (eraseD models_and_neuron_configs "vae_encoder",
   eraseD neuron_outputs "vae_encoder",
   eraseD output_model_names "vae_encoder")

/-- Lines 617-645: the try/except around `validate_models_outputs`.
A `ShapeError` is re-raised; `AtolError`, `OutputMatchError` and any other
exception are logged and swallowed, the run completing with the exported
artifacts untouched. -/
def validation_exception_policy (r : Except PyErr Unit)
    (artifacts : List String) : Except PyErr (List String) :=
  match r with
  | .ok _ => .ok artifacts
  | .error .shapeError => .error .shapeError
  | .error _ => .ok artifacts

/-- Lines 608-645 of `main_export`: the validation stage.  `artifacts` are
the paths already written by `export_models`; `validate` stands for the
external `validate_models_outputs`, called on the (possibly pruned)
mappings.  Note the vae-encoder pop on the compiled outputs uses no default
(line 613), so a missing key there raises `KeyError` outside the
try/except. -/
def main_export_validation {α β : Type} (do_validation : Bool) (task : String)
    (artifacts : List String)
    (models_and_neuron_configs : List (String × β))
    (neuron_outputs : List (String × α))
    (output_model_names : List (String × String))
    (validate : List (String × β) → List (String × α) →
      List (String × String) → Except PyErr Unit) :
    Except PyErr (List String) :=
  if do_validation then
    if strContains task "stable-diffusion" then
      match lookupD neuron_outputs "vae_encoder" with
      | none => .error (.keyError "vae_encoder")
      | some _ =>
        let pruned := drop_vae_encoder models_and_neuron_configs
          neuron_outputs output_model_names
        validation_exception_policy
          (validate pruned.1 pruned.2.1 pruned.2.2) artifacts
    else
      validation_exception_policy
        (validate models_and_neuron_configs neuron_outputs output_model_names)
        artifacts
  else .ok artifacts

/-! ## Concrete example inputs used by closed theorems -/

/-- A pipeline whose VAE declares two `block_out_channels` entries (so one
scale-reduction stage): tokenizer with max length 77, a 768-wide text
encoder, a 4-channel unet, a VAE with 3 input and 4 latent channels. -/
def examplePipeline2 : SDPipeline :=
  { tokenizer := some { model_max_length := 77 }
    tokenizer_2 := none
    text_encoder := some { hidden_size := 768 }
    text_encoder_2 := none
    unet := { in_channels := 4 }
    vae := { in_channels := 3, latent_channels := 4,
             block_out_channels := [32, 64] } }

/-- Caller-resolved shapes with height = width = 64 on the unet component. -/
def exampleShapes2 : SDict :=
  [("text_encoder", [("batch_size", 1)]),
   ("unet", [("batch_size", 2), ("height", 64), ("width", 64)]),
   ("vae_encoder", [("batch_size", 1), ("height", 64), ("width", 64)]),
   ("vae_decoder", [("batch_size", 1), ("height", 64), ("width", 64)])]

/-- A caller argument mapping for stable-diffusion shape normalization. -/
def exampleSdArgs : List (String × PyVal) :=
  [("model", .vstr "stabilityai/sd"),
   ("do_classifier_free_guidance", .vbool true),
   ("batch_size", .vint 1), ("height", .vint 64), ("width", .vint 64)]

/-! ## Basic lemmas about the dictionary embedding -/

theorem lookupD_setD {α : Type} (d : List (String × α)) (k k' : String) (v : α) :
    lookupD (setD d k v) k' = if k' = k then some v else lookupD d k' := by
  induction d with
  | nil =>
    by_cases h : k = k'
    · simp [setD, lookupD, h]
    · have h2 : ¬ k' = k := fun hh => h hh.symm
      simp [setD, lookupD, h, h2]
  | cons p rest ih =>
    obtain ⟨pk, pv⟩ := p
    by_cases h1 : pk = k
    · by_cases h2 : k = k'
      · subst h2
        simp [setD, lookupD, h1]
      · have h3 : ¬ k' = k := fun hh => h2 hh.symm
        simp [setD, lookupD, h1, h2, h3]
    · by_cases h2 : pk = k'
      · have h3 : ¬ k' = k := fun hh => h1 (h2.trans hh)
        simp [setD, lookupD, h1, h2, h3]
      · simp [setD, lookupD, h1, h2, ih]

theorem lookupD_eraseD {α : Type} (d : List (String × α)) (k k' : String) :
    lookupD (eraseD d k) k' = if k' = k then none else lookupD d k' := by
  induction d with
  | nil => simp [eraseD, lookupD]
  | cons p rest ih =>
    obtain ⟨pk, pv⟩ := p
    by_cases h1 : pk = k
    · by_cases h2 : k' = k
      · subst h2
        simp [eraseD, lookupD, h1, ih]
      · have h4 : ¬ k = k' := fun hh => h2 hh.symm
        simp [eraseD, lookupD, h1, h2, h4, ih]
    · by_cases h2 : pk = k'
      · have h3 : ¬ k' = k := fun hh => h1 (h2.trans hh)
        simp [eraseD, lookupD, h1, h2, h3]
      · simp [eraseD, lookupD, h1, h2, ih]

theorem lookupD_eraseD_self {α : Type} (d : List (String × α)) (k : String) :
    lookupD (eraseD d k) k = none := by
  simp [lookupD_eraseD]

theorem lookupD_eraseD_ne {α : Type} (d : List (String × α)) (k k' : String)
    (h : k' ≠ k) : lookupD (eraseD d k) k' = lookupD d k' := by
  simp [lookupD_eraseD, h]

theorem lookupD_setD_self {α : Type} (d : List (String × α)) (k : String) (v : α) :
    lookupD (setD d k v) k = some v := by
  simp [lookupD_setD]

theorem lookupD_setD_ne {α : Type} (d : List (String × α)) (k k' : String) (v : α)
    (h : k' ≠ k) : lookupD (setD d k v) k' = lookupD d k' := by
  simp [lookupD_setD, h]

/-- Lookup over a dict built by mapping a function over a list of keys. -/
theorem lookupD_map_keys {α : Type} (keys : List String) (f : String → α)
    (x : String) :
    lookupD (keys.map fun a => (a, f a)) x =
      if x ∈ keys then some (f x) else none := by
  induction keys with
  | nil => simp [lookupD]
  | cons a rest ih =>
    by_cases h : a = x
    · subst h; simp [lookupD]
    · have hx : ¬ x = a := fun hh => h hh.symm
      simp [lookupD, h, ih, hx]

theorem pyVaeScaleFactor_eq_pow (n : Nat) :
    pyVaeScaleFactor n = 2 ^ (n - 1) := by
  have h : (2 : Nat) ^ (n - 1) ≠ 0 :=
    Nat.pos_iff_ne_zero.mp (Nat.pos_pow_of_pos _ (by decide))
  simp [pyVaeScaleFactor, h]

theorem validation_exception_policy_other (e : PyErr) (he : e ≠ .shapeError)
    (arts : List String) :
    validation_exception_policy (.error e) arts = .ok arts := by
  cases e <;> first
    | rfl
    | exact absurd rfl he

/-! ## Claim theorems -/

/-- Claim C1: for every call to `load_models_and_neuron_configs` in which
`controlnet_model_ids` is `None` or an empty collection, the local variable
`controlnets` is never assigned before it is passed to
`get_submodels_and_neuron_configs`, so the call raises an
unbound-local-variable error instead of completing the decomposition; and
no export without ControlNets can reach the export driver through this
function (every successful call had a truthy `controlnet_model_ids`). -/
theorem load_models_unbound_controlnets (neuron_available : Bool)
    (model : LoadedModel) (input_shapes : InputShapes) (task : String)
    (mand : List String) (mnp : Option String) (submodels : Option Unit)
    (oa ohs : Bool) (l1 l2 l3 : Option (PyScalarOrList String))
    (l4 : Option (PyScalarOrList LoraScale))
    (cids : Option (PyScalarOrList String)) :
    ((cids = none ∨ cids = some (.list []) →
      load_models_and_neuron_configs neuron_available model input_shapes task
        mand mnp submodels oa ohs l1 l2 l3 l4 cids =
        .error (.unboundLocalError "controlnets"))
    ∧ (∀ r, load_models_and_neuron_configs neuron_available model input_shapes
        task mand mnp submodels oa ohs l1 l2 l3 l4 cids = .ok r →
        ∃ ids, cids = some ids ∧ pyTruthySL (some ids) = true)) := by
  constructor
  · rintro (rfl | rfl) <;>
      simp [load_models_and_neuron_configs, pyTruthySL]
  · intro r hr
    by_cases ht : pyTruthySL cids = true
    · cases cids with
      | none => simp [pyTruthySL] at ht
      | some ids => exact ⟨ids, rfl, ht⟩
    · rw [load_models_and_neuron_configs.eq_def, if_neg ht] at hr
      exact absurd hr (by simp)

theorem load_models_unbound_controlnets_witness :
    load_models_and_neuron_configs false
      (.pretrained ⟨true, false, some "org/bert-base", "bert"⟩)
      (.flat [("batch_size", 1), ("sequence_length", 128)])
      "text-classification" ["batch_size", "sequence_length"]
      (some "org/bert-base") none false false none none none none none =
      .error (.unboundLocalError "controlnets") :=
  (load_models_unbound_controlnets false
      (.pretrained ⟨true, false, some "org/bert-base", "bert"⟩)
      (.flat [("batch_size", 1), ("sequence_length", 128)])
      "text-classification" ["batch_size", "sequence_length"]
      (some "org/bert-base") none false false none none none none none).1
    (Or.inl rfl)

/-- Claim C4: in `main_export` with validation requested, every `ShapeError`
raised by validation propagates out, while an `AtolError`, an
`OutputMatchError`, or any other exception raised by validation is caught
and does not propagate, the run completing with the exported artifacts
still in place. -/
theorem main_export_validation_error_policy {α β : Type} (task : String)
    (arts : List String) (mc : List (String × β)) (no : List (String × α))
    (onames : List (String × String)) (vres : Except PyErr Unit)
    (hvae : strContains task "stable-diffusion" = true →
      containsD no "vae_encoder" = true) :
    (vres = .error .shapeError →
      main_export_validation true task arts mc no onames (fun _ _ _ => vres) =
        .error .shapeError)
    ∧ (∀ e, vres = .error e → e ≠ .shapeError →
      main_export_validation true task arts mc no onames (fun _ _ _ => vres) =
        .ok arts)
    ∧ (vres = .ok () →
      main_export_validation true task arts mc no onames (fun _ _ _ => vres) =
        .ok arts) := by
  by_cases hsd : strContains task "stable-diffusion" = true
  · have hv := hvae hsd
    rw [containsD, Option.isSome_iff_exists] at hv
    obtain ⟨v, hv⟩ := hv
    refine ⟨?_, ?_, ?_⟩
    · rintro rfl
      simp [main_export_validation, hsd, hv, validation_exception_policy]
    · rintro e rfl he
      simp only [main_export_validation, hsd, if_pos rfl, hv]
      simp [validation_exception_policy_other e he]
    · rintro rfl
      simp [main_export_validation, hsd, hv, validation_exception_policy]
  · have hsd' : strContains task "stable-diffusion" = false :=
      Bool.not_eq_true _ ▸ by simpa using hsd
    refine ⟨?_, ?_, ?_⟩
    · rintro rfl
      simp [main_export_validation, hsd', validation_exception_policy]
    · rintro e rfl he
      simp only [main_export_validation, hsd', Bool.false_eq_true, if_false,
        if_true]
      simp [validation_exception_policy_other e he]
    · rintro rfl
      simp [main_export_validation, hsd', validation_exception_policy]

theorem main_export_validation_error_policy_witness :
    main_export_validation true "text-classification" ["model.neuron"]
      ([("model", ())] : List (String × Unit))
      ([("model", ())] : List (String × Unit)) [("model", "model.neuron")]
      (fun _ _ _ => .error .atolError) = .ok ["model.neuron"] :=
  (main_export_validation_error_policy "text-classification" ["model.neuron"]
      [("model", ())] [("model", ())] [("model", "model.neuron")]
      (.error .atolError) (by decide)).2.1 .atolError rfl (by decide)

/-- Claim C5: for every encoder-decoder model, decomposition yields exactly
two submodel entries whose artifact-name map keys are "encoder" and
"decoder", and when the older compiler generation (neuron-cc) is active it
raises a `RuntimeError` before producing any submodel (the error result
carries no submodels), regardless of any other argument. -/
theorem encoder_decoder_decomposition_policy (na : Bool)
    (ishapes : InputShapes) (task : String) (oa ohs : Bool) :
    (na = true →
      get_submodels_and_neuron_configs_for_encoder_decoder na ishapes task
        oa ohs = .error (.runtimeError
        "Encoder-decoder models export is not supported by neuron-cc on inf1, please use neuronx-cc on either inf2/trn1 instead."))
    ∧ (na = false →
      get_submodels_and_neuron_configs_for_encoder_decoder na ishapes task
        oa ohs = .ok (get_encoder_decoder_models_for_export,
          [(ENCODER_NAME, "encoder/model.neuron"),
           (DECODER_NAME, "decoder/model.neuron")])
      ∧ get_encoder_decoder_models_for_export.map Prod.fst =
          [ENCODER_NAME, DECODER_NAME]
      ∧ get_encoder_decoder_models_for_export.length = 2
      ∧ ENCODER_NAME = "encoder" ∧ DECODER_NAME = "decoder") := by
  constructor
  · rintro rfl; rfl
  · rintro rfl
    refine ⟨rfl, by decide, by decide, rfl, rfl⟩

theorem encoder_decoder_decomposition_policy_witness :
    get_submodels_and_neuron_configs_for_encoder_decoder true
      (.flat [("batch_size", 1), ("sequence_length", 64)])
      "text2text-generation" false false = .error (.runtimeError
      "Encoder-decoder models export is not supported by neuron-cc on inf1, please use neuronx-cc on either inf2/trn1 instead.") :=
  (encoder_decoder_decomposition_policy true
      (.flat [("batch_size", 1), ("sequence_length", 64)])
      "text2text-generation" false false).1 rfl

/-- Claim C8: for every combination of the four low-rank-adapter parameters,
normalization turns each bare scalar into a single-element list, leaves
list-valued and `None`-valued parameters unchanged, and never raises (the
embedding is a total function) — in particular supplying three model
identifiers together with one scalar scale yields a one-element scale list
without any error. -/
theorem lora_params_normalization :
    (∀ (ids wns ans : Option (PyScalarOrList String))
        (scs : Option (PyScalarOrList LoraScale)),
      normalize_lora_params ids wns ans scs =
        (normOneLora ids, normOneLora wns, normOneLora ans, normOneLora scs))
    ∧ (∀ s : String, normOneLora (some (.scalar s)) = some (.list [s]))
    ∧ (∀ q : LoraScale, normOneLora (some (.scalar q)) = some (.list [q]))
    ∧ (∀ l : List String, normOneLora (some (.list l)) = some (.list l))
    ∧ (∀ l : List LoraScale, normOneLora (some (.list l)) = some (.list l))
    ∧ normOneLora (none : Option (PyScalarOrList String)) = none
    ∧ normOneLora (none : Option (PyScalarOrList LoraScale)) = none
    ∧ (∀ (i1 i2 i3 : String) (q : LoraScale),
      normalize_lora_params (some (.list [i1, i2, i3])) none none
        (some (.scalar q)) =
        (some (.list [i1, i2, i3]), none, none, some (.list [q]))) :=
  ⟨fun _ _ _ _ => rfl, fun _ => rfl, fun _ => rfl, fun _ => rfl, fun _ => rfl,
   rfl, rfl, fun _ _ _ _ => rfl⟩

/-- Claim C9: in `main_export` with validation requested on a
stable-diffusion task, the `vae_encoder` entry is removed from the compiled
named outputs, the submodel mapping, and the artifact-name map before the
Validation Engine runs; entries for all other submodels are passed to
validation unchanged. -/
theorem vae_encoder_excluded_from_validation {α β : Type} (task : String)
    (arts : List String) (mc : List (String × β)) (no : List (String × α))
    (onames : List (String × String))
    (hsd : strContains task "stable-diffusion" = true)
    (hin : containsD no "vae_encoder" = true) :
    (lookupD (drop_vae_encoder mc no onames).1 "vae_encoder" = none
     ∧ lookupD (drop_vae_encoder mc no onames).2.1 "vae_encoder" = none
     ∧ lookupD (drop_vae_encoder mc no onames).2.2 "vae_encoder" = none)
    ∧ (∀ k, k ≠ "vae_encoder" →
        lookupD (drop_vae_encoder mc no onames).1 k = lookupD mc k
        ∧ lookupD (drop_vae_encoder mc no onames).2.1 k = lookupD no k
        ∧ lookupD (drop_vae_encoder mc no onames).2.2 k = lookupD onames k)
    ∧ (∀ validate, main_export_validation true task arts mc no onames validate =
        validation_exception_policy
          (validate (drop_vae_encoder mc no onames).1
            (drop_vae_encoder mc no onames).2.1
            (drop_vae_encoder mc no onames).2.2) arts) := by
  refine ⟨⟨?_, ?_, ?_⟩, ?_, ?_⟩
  · exact lookupD_eraseD_self mc "vae_encoder"
  · exact lookupD_eraseD_self no "vae_encoder"
  · exact lookupD_eraseD_self onames "vae_encoder"
  · intro k hk
    exact ⟨lookupD_eraseD_ne mc _ _ hk, lookupD_eraseD_ne no _ _ hk,
      lookupD_eraseD_ne onames _ _ hk⟩
  · intro validate
    rw [containsD, Option.isSome_iff_exists] at hin
    obtain ⟨v, hv⟩ := hin
    simp [main_export_validation, hsd, hv]

theorem vae_encoder_excluded_from_validation_witness :
    lookupD (drop_vae_encoder
      ([("unet", ()), ("vae_encoder", ())] : List (String × Unit))
      ([("unet", ()), ("vae_encoder", ())] : List (String × Unit))
      [("unet", "unet/model.neuron"),
       ("vae_encoder", "vae_encoder/model.neuron")]).2.1 "vae_encoder" =
      none :=
  ((vae_encoder_excluded_from_validation "stable-diffusion" []
      [("unet", ()), ("vae_encoder", ())] [("unet", ()), ("vae_encoder", ())]
      [("unet", "unet/model.neuron"),
       ("vae_encoder", "vae_encoder/model.neuron")]
      (by decide) (by decide)).1).2.1

/-- Evaluation of the shape-inference core on a well-formed input mapping
(the four component keys present, height and width on the unet component, a
tokenizer attached, no controlnets): the function succeeds and the final
state of the mapping is the chain of component updates of lines 231-248. -/
theorem inferSDcore_eval (shapes : SDict) (model : SDPipeline)
    (tok : SDTokenizer) (un te ve vd : List (String × Nat)) (hgt wdt : Nat)
    (htok : model.tokenizer = some tok)
    (hun : lookupD shapes "unet" = some un)
    (hh : lookupD un "height" = some hgt)
    (hw : lookupD un "width" = some wdt)
    (hte : lookupD shapes "text_encoder" = some te)
    (hve : lookupD shapes "vae_encoder" = some ve)
    (hvd : lookupD shapes "vae_decoder" = some vd) :
    inferSDcore shapes model none = (.ok (),
      setD (setD (setD
        (let s1 := setD shapes "text_encoder"
          (updD te [("sequence_length", tok.model_max_length)])
         if model.text_encoder_2.isSome then
           setD s1 "text_encoder_2"
             (updD te [("sequence_length", tok.model_max_length)])
         else s1)
        "unet" (updD un
          [("sequence_length", tok.model_max_length),
           ("num_channels", model.unet.in_channels),
           ("height", hgt / pyVaeScaleFactor model.vae.block_out_channels.length),
           ("width", wdt / pyVaeScaleFactor model.vae.block_out_channels.length)]))
        "vae_encoder" (updD ve
          [("num_channels", model.vae.in_channels), ("height", hgt),
           ("width", wdt)]))
        "vae_decoder" (updD vd
          [("num_channels", model.vae.latent_channels),
           ("height", hgt / pyVaeScaleFactor model.vae.block_out_channels.length),
           ("width", wdt / pyVaeScaleFactor model.vae.block_out_channels.length)])) := by
  cases hte2 : model.text_encoder_2 with
  | none =>
    simp [inferSDcore, inferSeqLen, htok, hun, hh, hw, hte, hve, hvd, hte2,
      getItem, thenSt, updateItem, lookupD_setD]
  | some x =>
    simp [inferSDcore, inferSeqLen, htok, hun, hh, hw, hte, hve, hvd, hte2,
      getItem, thenSt, updateItem, lookupD_setD]

/-- Claim C2 counterexample: for a pipeline whose VAE declares two
`block_out_channels` entries, the code derives a spatial compression factor
of 2 (so unet height 64 / 2 = 32), while the claim's factor
"2^(n-1) clamped to at least 8" gives 8 (so height 64 / 8 = 8): the claim's
equation fails at this input. -/
theorem sd_scale_factor_clamp_counterexample :
    ((infer_stable_diffusion_shapes_from_diffusers exampleShapes2
        examplePipeline2 none).toOption.bind
        (fun out => lookup2 out "unet" "height") = some 32)
    ∧ ((infer_stable_diffusion_shapes_from_diffusers exampleShapes2
        examplePipeline2 none).toOption.bind
        (fun out => lookup2 out "vae_encoder" "height") = some 64)
    ∧ examplePipeline2.vae.block_out_channels.length = 2
    ∧ specClampedScaleFactor 2 = 8
    ∧ 64 / specClampedScaleFactor 2 = 8
    ∧ ¬ (some 32 = some (64 / specClampedScaleFactor 2)) := by
  decide

/-- Claim C2 (amended): for every stable-diffusion pipeline whose VAE
configuration declares n (≥ 1) `block_out_channels` entries, the derived
spatial compression factor equals 2^(n-1) — the `or 8` fallback applies
only to a falsy (zero) power, which cannot occur — and the unet and
vae_decoder height and width in the derived shapes equal the vae_encoder
height and width integer-divided by that factor, while vae_encoder keeps
the caller-supplied height and width. -/
theorem sd_shapes_scale_factor_amended (shapes : SDict) (model : SDPipeline)
    (tok : SDTokenizer) (un te ve vd : List (String × Nat)) (hgt wdt n : Nat)
    (hn : model.vae.block_out_channels.length = n) (_hn1 : 1 ≤ n)
    (htok : model.tokenizer = some tok)
    (hun : lookupD shapes "unet" = some un)
    (hh : lookupD un "height" = some hgt)
    (hw : lookupD un "width" = some wdt)
    (hte : lookupD shapes "text_encoder" = some te)
    (hve : lookupD shapes "vae_encoder" = some ve)
    (hvd : lookupD shapes "vae_decoder" = some vd) :
    ∃ out, infer_stable_diffusion_shapes_from_diffusers shapes model none =
        .ok out
      ∧ pyVaeScaleFactor n = 2 ^ (n - 1)
      ∧ lookup2 out "unet" "height" = some (hgt / 2 ^ (n - 1))
      ∧ lookup2 out "unet" "width" = some (wdt / 2 ^ (n - 1))
      ∧ lookup2 out "vae_decoder" "height" = some (hgt / 2 ^ (n - 1))
      ∧ lookup2 out "vae_decoder" "width" = some (wdt / 2 ^ (n - 1))
      ∧ lookup2 out "vae_encoder" "height" = some hgt
      ∧ lookup2 out "vae_encoder" "width" = some wdt := by
  have hev := inferSDcore_eval shapes model tok un te ve vd hgt wdt htok hun
    hh hw hte hve hvd
  have hinf : infer_stable_diffusion_shapes_from_diffusers shapes model none =
      .ok ((inferSDcore shapes model none).2) := by
    rw [infer_stable_diffusion_shapes_from_diffusers, hev]
  refine ⟨(inferSDcore shapes model none).2, hinf,
    pyVaeScaleFactor_eq_pow n, ?_, ?_, ?_, ?_, ?_, ?_⟩
  all_goals
    simp only [hev, hn, pyVaeScaleFactor_eq_pow, lookup2, updD, List.foldl,
      lookupD_setD]
  all_goals
    cases hte2 : model.text_encoder_2 <;> simp [lookupD_setD, hte2]

theorem sd_shapes_scale_factor_amended_witness :
    ∃ out, infer_stable_diffusion_shapes_from_diffusers exampleShapes2
        examplePipeline2 none = .ok out
      ∧ pyVaeScaleFactor 2 = 2 ^ (2 - 1)
      ∧ lookup2 out "unet" "height" = some (64 / 2 ^ (2 - 1))
      ∧ lookup2 out "unet" "width" = some (64 / 2 ^ (2 - 1))
      ∧ lookup2 out "vae_decoder" "height" = some (64 / 2 ^ (2 - 1))
      ∧ lookup2 out "vae_decoder" "width" = some (64 / 2 ^ (2 - 1))
      ∧ lookup2 out "vae_encoder" "height" = some 64
      ∧ lookup2 out "vae_encoder" "width" = some 64 :=
  sd_shapes_scale_factor_amended exampleShapes2 examplePipeline2
    { model_max_length := 77 } [("batch_size", 2), ("height", 64), ("width", 64)]
    [("batch_size", 1)] [("batch_size", 1), ("height", 64), ("width", 64)]
    [("batch_size", 1), ("height", 64), ("width", 64)] 64 64 2
    (by decide) (by decide) (by decide) (by decide) (by decide) (by decide)
    (by decide) (by decide) (by decide)

/-- Claim C3: for every generative pipeline, shape inference derives
`sequence_length` for the text encoder (and the unet) as the attached
tokenizer's declared maximum model length; and for every pipeline with no
tokenizer attached (neither `tokenizer` nor a non-None `tokenizer_2`),
shape inference raises an `AttributeError`-class error. -/
theorem infer_sd_sequence_length_policy (shapes : SDict) (model : SDPipeline)
    (tok : SDTokenizer) (un te ve vd : List (String × Nat)) (hgt wdt : Nat)
    (htok : model.tokenizer = some tok)
    (hun : lookupD shapes "unet" = some un)
    (hh : lookupD un "height" = some hgt)
    (hw : lookupD un "width" = some wdt)
    (hte : lookupD shapes "text_encoder" = some te)
    (hve : lookupD shapes "vae_encoder" = some ve)
    (hvd : lookupD shapes "vae_decoder" = some vd) :
    (∃ out, infer_stable_diffusion_shapes_from_diffusers shapes model none =
        .ok out
      ∧ lookup2 out "text_encoder" "sequence_length" =
          some tok.model_max_length
      ∧ lookup2 out "unet" "sequence_length" = some tok.model_max_length)
    ∧ (∀ (shapes2 : SDict) (model2 : SDPipeline)
        (cns : Option (List Unit)),
        model2.tokenizer = none →
        (model2.tokenizer_2 = none ∨ model2.tokenizer_2 = some none) →
        ∃ msg, infer_stable_diffusion_shapes_from_diffusers shapes2 model2
          cns = .error (.attributeError msg)) := by
  constructor
  · have hev := inferSDcore_eval shapes model tok un te ve vd hgt wdt htok
      hun hh hw hte hve hvd
    have hinf : infer_stable_diffusion_shapes_from_diffusers shapes model
        none = .ok ((inferSDcore shapes model none).2) := by
      rw [infer_stable_diffusion_shapes_from_diffusers, hev]
    refine ⟨(inferSDcore shapes model none).2, hinf, ?_, ?_⟩
    all_goals
      simp only [hev, lookup2, updD, List.foldl, lookupD_setD]
    all_goals
      cases hte2 : model.text_encoder_2 <;> simp [lookupD_setD, hte2]
  · rintro shapes2 model2 cns htok2 (h2 | h2) <;>
      exact ⟨"Cannot infer sequence_length as there is no tokenizer as attribute.",
        by simp [infer_stable_diffusion_shapes_from_diffusers,
          inferSDcore, inferSeqLen, htok2, h2]⟩

theorem infer_sd_sequence_length_policy_witness :
    ∃ out, infer_stable_diffusion_shapes_from_diffusers exampleShapes2
        examplePipeline2 none = .ok out
      ∧ lookup2 out "text_encoder" "sequence_length" = some 77
      ∧ lookup2 out "unet" "sequence_length" = some 77 :=
  (infer_sd_sequence_length_policy exampleShapes2 examplePipeline2
    { model_max_length := 77 } [("batch_size", 2), ("height", 64), ("width", 64)]
    [("batch_size", 1)] [("batch_size", 1), ("height", 64), ("width", 64)]
    [("batch_size", 1), ("height", 64), ("width", 64)] 64 64
    (by decide) (by decide) (by decide) (by decide) (by decide) (by decide)
    (by decide)).1

/-- Claim C10 counterexample: shape resolution is not side-effect free on
its arguments.  On a well-formed concrete input,
`normalize_stable_diffusion_input_shapes` succeeds yet the caller's
argument mapping afterwards differs from the original (the
`do_classifier_free_guidance` entry was popped from it), and
`infer_stable_diffusion_shapes_from_diffusers` succeeds yet the caller's
`input_shapes` mapping afterwards differs from the original (it was updated
in place and returned). -/
theorem shape_resolution_mutation_counterexample :
    (normalize_sd_args_after exampleSdArgs ≠ exampleSdArgs)
    ∧ ((normalize_stable_diffusion_input_shapes exampleSdArgs).toOption.isSome =
        true)
    ∧ (infer_sd_caller_shapes_after exampleShapes2 examplePipeline2 none ≠
        exampleShapes2)
    ∧ ((infer_stable_diffusion_shapes_from_diffusers exampleShapes2
        examplePipeline2 none).toOption.isSome = true) := by
  decide

/-- Claim C10 (amended): the two shape-resolution functions touch no global
state but do mutate their argument mappings:
`normalize_stable_diffusion_input_shapes` removes
`do_classifier_free_guidance` from the caller's mapping (leaving every
other entry unchanged, and building its result in fresh dictionaries), and
`infer_stable_diffusion_shapes_from_diffusers` updates the caller's
`input_shapes` mapping in place and returns that same mapping rather than a
fresh value. -/
theorem shape_resolution_argument_effects_amended :
    (∀ args : List (String × PyVal),
      lookupD (normalize_sd_args_after args) "do_classifier_free_guidance" =
        none)
    ∧ (∀ (args : List (String × PyVal)) (k : String),
        k ≠ "do_classifier_free_guidance" →
        lookupD (normalize_sd_args_after args) k = lookupD args k)
    ∧ (∀ (shapes : SDict) (model : SDPipeline) (cns : Option (List Unit))
        (out : SDict),
        infer_stable_diffusion_shapes_from_diffusers shapes model cns =
          .ok out →
        infer_sd_caller_shapes_after shapes model cns = out) := by
  refine ⟨?_, ?_, ?_⟩
  · intro args
    by_cases hc : containsD args "do_classifier_free_guidance" = true
    · simp [normalize_sd_args_after, hc, lookupD_eraseD_self]
    · have hn : lookupD args "do_classifier_free_guidance" = none := by
        rw [containsD] at hc
        exact Option.not_isSome_iff_eq_none.mp (by simpa using hc)
      simp [normalize_sd_args_after, hc, hn]
  · intro args k hk
    by_cases hc : containsD args "do_classifier_free_guidance" = true
    · simp [normalize_sd_args_after, hc, lookupD_eraseD_ne _ _ _ hk]
    · simp [normalize_sd_args_after, hc]
  · intro shapes model cns out hr
    rw [infer_stable_diffusion_shapes_from_diffusers] at hr
    rw [infer_sd_caller_shapes_after]
    rcases hc : inferSDcore shapes model cns with ⟨r, s⟩
    rw [hc] at hr
    cases r with
    | ok u => simpa using hr
    | error e => exact absurd hr (by simp)

theorem shape_resolution_argument_effects_amended_witness :
    lookupD (normalize_sd_args_after exampleSdArgs) "batch_size" =
      lookupD exampleSdArgs "batch_size" :=
  shape_resolution_argument_effects_amended.2.1 exampleSdArgs "batch_size"
    (by decide)

/-- Claim C6: for every single-graph (non-stable-diffusion,
non-encoder-decoder) model, decomposition emits exactly one submodel entry
keyed by the last path segment of the model's identifier
(`model.name_or_path` falling back to the caller's `model_name_or_path`),
falling back to the model's architecture type name when no identifier is
available, and maps that key to the artifact file name "model.neuron". -/
theorem single_graph_single_submodel_naming (na : Bool)
    (m : PretrainedInput) (fm : List (String × Nat)) (task : String)
    (mand : List String) (mnp : Option String) (submodels : Option Unit)
    (l1 l2 l3 : Option (PyScalarOrList String))
    (l4 : Option (PyScalarOrList LoraScale)) (cns : Option (List Unit))
    (hsd : strContains task "stable-diffusion" = false)
    (hed : (m.config_is_pretrained && m.is_encoder_decoder) = false)
    (hcheck : (mand.filter (fun a => !(containsD fm a))).isEmpty = true) :
    ∃ key,
      get_submodels_and_neuron_configs na (.pretrained m) (.flat fm) task
        mand mnp submodels false false l1 l2 l3 l4 cns =
        .ok ([(key, ())], [(key, "model.neuron")])
      ∧ (∀ s, pyStrOr m.name_or_path mnp = some s → s ≠ "" →
          key = lastSegment s)
      ∧ (pyStrOr m.name_or_path mnp = none → key = m.model_type)
      ∧ (pyStrOr m.name_or_path mnp = some "" → key = m.model_type) := by
  refine ⟨(match pyStrOr m.name_or_path mnp with
    | some s => if s = "" then m.model_type else lastSegment s
    | none => m.model_type), ?_, ?_, ?_, ?_⟩
  · simp only [get_submodels_and_neuron_configs, hsd, hed,
      check_mandatory_input_shapes, hcheck, Bool.false_eq_true, if_false,
      Bool.or_self, if_true]
  · intro s hs hne
    rw [hs]
    simp [hne]
  · intro hnone
    rw [hnone]
  · intro hempty
    rw [hempty]
    simp

theorem single_graph_single_submodel_naming_witness :
    ∃ key,
      get_submodels_and_neuron_configs false
        (.pretrained ⟨true, false, some "org/bert-base", "bert"⟩)
        (.flat [("batch_size", 1), ("sequence_length", 128)])
        "text-classification" ["batch_size", "sequence_length"]
        (some "org/bert-base") none false false none none none none none =
        .ok ([(key, ())], [(key, "model.neuron")])
      ∧ (∀ s, pyStrOr (some "org/bert-base") (some "org/bert-base") = some s →
          s ≠ "" → key = lastSegment s)
      ∧ (pyStrOr (some "org/bert-base") (some "org/bert-base") = none →
          key = "bert")
      ∧ (pyStrOr (some "org/bert-base") (some "org/bert-base") = some "" →
          key = "bert") :=
  single_graph_single_submodel_naming false
    ⟨true, false, some "org/bert-base", "bert"⟩
    [("batch_size", 1), ("sequence_length", 128)] "text-classification"
    ["batch_size", "sequence_length"] (some "org/bert-base") none
    none none none none none (by decide) (by decide) (by decide)

/-- Claim C7: for every task requiring dimension set D and every
caller-supplied shape mapping covering only a proper subset of D, shape
normalization raises an error whose payload names exactly the missing
dimension names, and never silently defaults a mandatory dimension (on
success every mandatory axis is taken verbatim from the caller's mapping).
Stated for both normalization functions of the module: the
sentence-transformers one (D = `stMandatoryAxes`) and the stable-diffusion
one (D = `sdMandatoryAxes`). -/
theorem shape_normalization_missing_axes :
    (∀ (args : List (String × PyVal)) (modelName : String),
      lookupD args "model" = some (.vstr modelName) →
      (((stMandatoryAxes modelName).filter
          (fun a => !(containsD args a)) = []) →
        ∃ res, normalize_sentence_transformers_input_shapes args = .ok res
          ∧ ∀ a ∈ stMandatoryAxes modelName, lookupD res a = lookupD args a)
      ∧ ((stMandatoryAxes modelName).filter
          (fun a => !(containsD args a)) ≠ [] →
        normalize_sentence_transformers_input_shapes args =
          .error (.attributeErrorMissingShapes
            ((stMandatoryAxes modelName).filter
              (fun a => !(containsD args a))))
        ∧ ∀ x, x ∈ (stMandatoryAxes modelName).filter
            (fun a => !(containsD args a)) ↔
            x ∈ stMandatoryAxes modelName ∧ containsD args x = false))
    ∧ (∀ (args : List (String × PyVal)) (dcp : PyVal),
      lookupD args "do_classifier_free_guidance" = some dcp →
      ((sdMandatoryAxes.filter (fun a => !(containsD args a)) = []) →
        ∃ res, normalize_stable_diffusion_input_shapes args = .ok res)
      ∧ (sdMandatoryAxes.filter (fun a => !(containsD args a)) ≠ [] →
        normalize_stable_diffusion_input_shapes args =
          .error (.attributeErrorMissingShapes
            (sdMandatoryAxes.filter (fun a => !(containsD args a))))
        ∧ ∀ x, x ∈ sdMandatoryAxes.filter (fun a => !(containsD args a)) ↔
            x ∈ sdMandatoryAxes ∧ containsD args x = false)) := by
  constructor
  · intro args modelName hm
    constructor
    · intro hempty
      refine ⟨(stMandatoryAxes modelName).map
          (fun a => (a, (lookupD args a).getD .vnone)), ?_, ?_⟩
      · simp only [normalize_sentence_transformers_input_shapes, hm]
        rw [hempty]
        rfl
      · intro a ha
        have hc : containsD args a = true := by
          by_contra hc
          have hmem : a ∈ (stMandatoryAxes modelName).filter
              (fun a => !(containsD args a)) :=
            List.mem_filter.mpr ⟨ha, by
              simp only [Bool.not_eq_true] at hc
              simp [hc]⟩
          rw [hempty] at hmem
          exact absurd hmem (List.not_mem_nil a)
        obtain ⟨v, hv⟩ := Option.isSome_iff_exists.mp (by
          rw [containsD] at hc; exact hc)
        rw [lookupD_map_keys, if_pos ha, hv]
        rfl
    · intro hne
      constructor
      · simp only [normalize_sentence_transformers_input_shapes, hm]
        have : ((stMandatoryAxes modelName).filter
            (fun a => !(containsD args a))).isEmpty = false := by
          cases hL : (stMandatoryAxes modelName).filter
              (fun a => !(containsD args a)) with
          | nil => exact absurd hL hne
          | cons x xs => rfl
        rw [this]
        rfl
      · intro x
        simp [List.mem_filter]
  · intro args dcp hd
    have hfc : sdMandatoryAxes.filter
        (fun a => !(containsD (eraseD args "do_classifier_free_guidance") a)) =
        sdMandatoryAxes.filter (fun a => !(containsD args a)) := by
      apply List.filter_congr
      intro a ha
      have hne : a ≠ "do_classifier_free_guidance" := by
        have haxes : sdMandatoryAxes = ["batch_size", "height", "width"] := by
          decide
        rw [haxes] at ha
        simp only [List.mem_cons, List.not_mem_nil, or_false] at ha
        rcases ha with rfl | rfl | rfl <;> decide
      rw [containsD, containsD, lookupD_eraseD_ne _ _ _ hne]
    constructor
    · intro hempty
      have hok : normalize_stable_diffusion_input_shapes args =
          .ok (build_stable_diffusion_components_mandatory_shapes dcp
            (setD (sdMandatoryAxes.map fun a =>
                (a, (lookupD (eraseD args "do_classifier_free_guidance")
                  a).getD .vnone))
              "num_images_per_prompt"
              ((lookupD (eraseD args "do_classifier_free_guidance")
                "num_images_per_prompt").getD (.vint 1)))) := by
        simp only [normalize_stable_diffusion_input_shapes, hd, hfc]
        rw [hempty]
        rfl
      exact ⟨_, hok⟩
    · intro hne
      constructor
      · simp only [normalize_stable_diffusion_input_shapes, hd, hfc]
        have : (sdMandatoryAxes.filter
            (fun a => !(containsD args a))).isEmpty = false := by
          cases hL : sdMandatoryAxes.filter (fun a => !(containsD args a)) with
          | nil => exact absurd hL hne
          | cons x xs => rfl
        rw [this]
        rfl
      · intro x
        simp [List.mem_filter]

theorem shape_normalization_missing_axes_witness :
    normalize_sentence_transformers_input_shapes
      [("model", PyVal.vstr "bert"), ("batch_size", PyVal.vint 1)] =
      .error (.attributeErrorMissingShapes ["sequence_length"]) := by
  have h := (shape_normalization_missing_axes.1
    [("model", PyVal.vstr "bert"), ("batch_size", PyVal.vint 1)] "bert"
    (by decide)).2 (by decide)
  obtain ⟨h1, _⟩ := h
  have hf : (stMandatoryAxes "bert").filter
      (fun a => !(containsD
        [("model", PyVal.vstr "bert"), ("batch_size", PyVal.vint 1)] a)) =
      ["sequence_length"] := by decide
  rw [hf] at h1
  exact h1
